import Mathlib

/-!
Verification of the AI-SEO content-scoring pipeline of the product-skills
repository. JavaScript numbers are modelled as exact rationals; a JavaScript
division 0/0 (NaN) is modelled by `Option.none`. Every definition is a direct
translation of the corresponding TypeScript function.
-/

namespace ProductSkills

/-! ## Constants (src constants.ts) -/

/-- EEAT_WEIGHTS.EXPERTISE from constants.ts. -/
def EEAT_WEIGHTS_EXPERTISE : ℚ := 0.3

/-- EEAT_WEIGHTS.EXPERIENCE from constants.ts. -/
def EEAT_WEIGHTS_EXPERIENCE : ℚ := 0.25

/-- EEAT_WEIGHTS.AUTHORITATIVENESS from constants.ts. -/
def EEAT_WEIGHTS_AUTHORITATIVENESS : ℚ := 0.25

/-- EEAT_WEIGHTS.TRUSTWORTHINESS from constants.ts. -/
def EEAT_WEIGHTS_TRUSTWORTHINESS : ℚ := 0.2

/-- FRESHNESS_THRESHOLDS.CRITICAL (days) from constants.ts. -/
def FRESHNESS_THRESHOLDS_CRITICAL : ℚ := 7

/-- FRESHNESS_THRESHOLDS.HIGH from constants.ts. -/
def FRESHNESS_THRESHOLDS_HIGH : ℚ := 30

/-- FRESHNESS_THRESHOLDS.MEDIUM from constants.ts. -/
def FRESHNESS_THRESHOLDS_MEDIUM : ℚ := 90

/-- CITATION_WORTHINESS_FACTORS.UNIQUE_DATA from constants.ts. -/
def CITATION_WORTHINESS_UNIQUE_DATA : ℚ := 0.25

/-- CITATION_WORTHINESS_FACTORS.EXPERT_QUOTES from constants.ts. -/
def CITATION_WORTHINESS_EXPERT_QUOTES : ℚ := 0.2

/-- CITATION_WORTHINESS_FACTORS.ORIGINAL_RESEARCH from constants.ts. -/
def CITATION_WORTHINESS_ORIGINAL_RESEARCH : ℚ := 0.2

/-- CITATION_WORTHINESS_FACTORS.COMPREHENSIVE_COVERAGE from constants.ts. -/
def CITATION_WORTHINESS_COMPREHENSIVE_COVERAGE : ℚ := 0.15

/-! ## E-E-A-T signals (EEATSignalBuilder) -/

/-- The signal types of the EEATSignal interface in types.ts. -/
inductive SignalType where
  | author_bio
  | citation
  | credential
  | social_proof
  | review
deriving DecidableEq, Repr

/-- The EEATSignal record of types.ts: a (type, strength, description, location)
tuple. Only `strength` enters the scores. -/
structure EEATSignal where
  type : SignalType
  strength : ℚ
  description : String
  location : String
deriving DecidableEq, Repr

/-- Features read by EEATSignalBuilder.analyzeExpertise: the text length of each
element matching the author selectors, whether the credential regex matched, and
the number of expertise-section elements. -/
structure ExpertiseFeatures where
  authorTextLengths : List ℕ
  credentialsFound : Bool
  expertiseSections : ℕ
deriving DecidableEq, Repr

/-- EEATSignalBuilder.analyzeExpertise: one author_bio signal per author element
(strength 0.8 when its text is longer than 50 characters, else 0.4), one
credential signal of strength 0.7 when the credential regex matches, and one
credential signal of strength 0.6 per expertise-section element. -/
def analyzeExpertise (f : ExpertiseFeatures) : List EEATSignal :=
  (f.authorTextLengths.map fun len =>
    { type := .author_bio
      strength := if len > 50 then 0.8 else 0.4
      description := "Author information found"
      location := "element" })
  ++ (if f.credentialsFound then
        [{ type := .credential, strength := 0.7
           description := "Professional credentials found", location := "content" }]
      else [])
  ++ (List.replicate f.expertiseSections
        { type := .credential, strength := 0.6
          description := "Expertise section found", location := "element" })

/-- Features read by EEATSignalBuilder.analyzeExperience: the number of
first-hand experience regex matches, case-study elements, and testimonial
elements. -/
structure ExperienceFeatures where
  experienceMatches : ℕ
  caseStudies : ℕ
  testimonials : ℕ
deriving DecidableEq, Repr

/-- EEATSignalBuilder.analyzeExperience: a credential signal of strength
min(matches * 0.1, 0.8) when more than 3 experience phrases match, a credential
signal of strength 0.7 when case studies are present, and a review signal of
strength 0.6 when testimonials are present. -/
def analyzeExperience (f : ExperienceFeatures) : List EEATSignal :=
  (if f.experienceMatches > 3 then
    [{ type := .credential, strength := min ((f.experienceMatches : ℚ) * 0.1) 0.8
       description := "First-hand experience indicators found", location := "content" }]
  else [])
  ++ (if f.caseStudies > 0 then
        [{ type := .credential, strength := 0.7
           description := "case studies or examples found", location := "content" }]
      else [])
  ++ (if f.testimonials > 0 then
        [{ type := .review, strength := 0.6
           description := "testimonials found", location := "content" }]
      else [])

/-- Features read by EEATSignalBuilder.analyzeAuthoritativeness: the number of
citation elements, of external links to authoritative domains, and of
statistical-data regex matches. -/
structure AuthoritativenessFeatures where
  citations : ℕ
  authoritativeLinks : ℕ
  dataMatches : ℕ
deriving DecidableEq, Repr

/-- EEATSignalBuilder.analyzeAuthoritativeness: a citation signal of strength
min(citations * 0.1, 0.9) when citations are present, a citation signal of
strength min(links * 0.15, 0.8) when authoritative links are present, and a
citation signal of strength 0.6 when more than 2 data regex matches occur. -/
def analyzeAuthoritativeness (f : AuthoritativenessFeatures) : List EEATSignal :=
  (if f.citations > 0 then
    [{ type := .citation, strength := min ((f.citations : ℚ) * 0.1) 0.9
       description := "citations found", location := "content" }]
  else [])
  ++ (if f.authoritativeLinks > 0 then
        [{ type := .citation, strength := min ((f.authoritativeLinks : ℚ) * 0.15) 0.8
           description := "links to authoritative sources", location := "content" }]
      else [])
  ++ (if f.dataMatches > 2 then
        [{ type := .citation, strength := 0.6
           description := "Statistical data and research findings present"
           location := "content" }]
      else [])

/-- Features read by EEATSignalBuilder.analyzeTrustworthiness: counts of contact
elements, of legal-page links, whether security terms are mentioned, and the
count of date elements. -/
structure TrustworthinessFeatures where
  contactElements : ℕ
  legalLinks : ℕ
  securityMention : Bool
  dateElements : ℕ
deriving DecidableEq, Repr

/-- EEATSignalBuilder.analyzeTrustworthiness: social_proof signals of strengths
0.6 (contact info), 0.5 (legal pages), 0.4 (security terms) and 0.5 (dates),
each emitted when its feature is present. -/
def analyzeTrustworthiness (f : TrustworthinessFeatures) : List EEATSignal :=
  (if f.contactElements > 0 then
    [{ type := .social_proof, strength := 0.6
       description := "Contact information available", location := "page" }]
  else [])
  ++ (if f.legalLinks > 0 then
        [{ type := .social_proof, strength := 0.5
           description := "Legal pages linked", location := "page" }]
      else [])
  ++ (if f.securityMention then
        [{ type := .social_proof, strength := 0.4
           description := "Security indicators mentioned", location := "content" }]
      else [])
  ++ (if f.dateElements > 0 then
        [{ type := .social_proof, strength := 0.5
           description := "Publication dates present", location := "content" }]
      else [])

/-- EEATSignalBuilder.calculateSignalScore: 0 for an empty signal list, otherwise
the mean strength capped at 1. -/
def calculateSignalScore (signals : List EEATSignal) : ℚ :=
  if signals.isEmpty then 0
  else min ((signals.map EEATSignal.strength).sum / signals.length) 1

/-! ## Citation worthiness (AICitationAnalyzer) -/

/-- The DataPoint record of types.ts. -/
structure DataPoint where
  value : String
  source : String
  unique : Bool
  verifiable : Bool
deriving DecidableEq, Repr

/-- The ExpertQuote record of types.ts. -/
structure ExpertQuote where
  quote : String
  expert : String
  credentials : String
  context : String
deriving DecidableEq, Repr

/-- The argument record of AICitationAnalyzer.calculateCitationWorthiness. -/
structure CitationData where
  uniqueInsights : List String
  dataPoints : List DataPoint
  originalResearch : Bool
  expertQuotes : List ExpertQuote
deriving DecidableEq, Repr

/-- AICitationAnalyzer.calculateCitationWorthiness: capped contributions from
unique insights, verifiable data points, expert quotes, an original-research
bonus, a comprehensive-coverage bonus when more than 10 elements are present,
with the total capped at 1. -/
def calculateCitationWorthiness (data : CitationData) : ℚ :=
  let s1 := min ((data.uniqueInsights.length : ℚ) * 0.05) 0.25 * CITATION_WORTHINESS_UNIQUE_DATA
  let verifiableData := (data.dataPoints.filter fun dp => dp.verifiable).length
  let s2 := min ((verifiableData : ℚ) * 0.05) 0.25 * CITATION_WORTHINESS_UNIQUE_DATA
  let s3 := min ((data.expertQuotes.length : ℚ) * 0.04) 0.2 * CITATION_WORTHINESS_EXPERT_QUOTES
  let s4 := if data.originalResearch then CITATION_WORTHINESS_ORIGINAL_RESEARCH else 0
  let totalElements :=
    data.uniqueInsights.length + data.dataPoints.length + data.expertQuotes.length
  let s5 := if totalElements > 10 then CITATION_WORTHINESS_COMPREHENSIVE_COVERAGE else 0
  min (s1 + s2 + s3 + s4 + s5) 1

/-- calculateCitationWorthiness as a function of the four counts and the
original-research flag it depends on; used to factor monotonicity arguments. -/
def citationScoreOfCounts (insights verifiableData dataPointCount quotes : ℕ)
    (research : Bool) : ℚ :=
  min (min ((insights : ℚ) * 0.05) 0.25 * CITATION_WORTHINESS_UNIQUE_DATA
      + min ((verifiableData : ℚ) * 0.05) 0.25 * CITATION_WORTHINESS_UNIQUE_DATA
      + min ((quotes : ℚ) * 0.04) 0.2 * CITATION_WORTHINESS_EXPERT_QUOTES
      + (if research then CITATION_WORTHINESS_ORIGINAL_RESEARCH else 0)
      + (if insights + dataPointCount + quotes > 10
          then CITATION_WORTHINESS_COMPREHENSIVE_COVERAGE else 0)) 1

/-! ## Freshness (FreshnessMonitor) -/

/-- The updateUrgency variants of the FreshnessScore interface in types.ts. -/
inductive UpdateUrgency where
  | low
  | medium
  | high
  | critical
deriving DecidableEq, Repr

/-- FreshnessMonitor.calculateFreshnessScore: stepwise decay with age, a 0.2
bonus when fresher than the competitor average, clamped to [0, 1]. -/
def calculateFreshnessScore (daysSinceUpdate competitorAverage : ℚ) : ℚ :=
  let s0 : ℚ := 1
  let s1 := if daysSinceUpdate > 7 then s0 - 0.1 else s0
  let s2 := if daysSinceUpdate > 30 then s1 - 0.2 else s1
  let s3 := if daysSinceUpdate > 60 then s2 - 0.2 else s2
  let s4 := if daysSinceUpdate > 90 then s3 - 0.2 else s3
  let s5 := if daysSinceUpdate > 180 then s4 - 0.3 else s4
  let s6 := if daysSinceUpdate < competitorAverage then s5 + 0.2 else s5
  max 0 (min 1 s6)

/-- The age-decay part of calculateFreshnessScore, before the competitor bonus
and the clamp; used to factor run-dependence arguments. -/
def freshnessBase (daysSinceUpdate : ℚ) : ℚ :=
  let s0 : ℚ := 1
  let s1 := if daysSinceUpdate > 7 then s0 - 0.1 else s0
  let s2 := if daysSinceUpdate > 30 then s1 - 0.2 else s1
  let s3 := if daysSinceUpdate > 60 then s2 - 0.2 else s2
  let s4 := if daysSinceUpdate > 90 then s3 - 0.2 else s3
  if daysSinceUpdate > 180 then s4 - 0.3 else s4

/-- FreshnessMonitor.determineUpdateUrgency: critical when behind competitors by
a factor of two, then threshold comparisons against FRESHNESS_THRESHOLDS. -/
def determineUpdateUrgency (daysSinceUpdate competitorAverage : ℚ) : UpdateUrgency :=
  if daysSinceUpdate > competitorAverage * 2 then .critical
  else if daysSinceUpdate > FRESHNESS_THRESHOLDS_CRITICAL then .critical
  else if daysSinceUpdate > FRESHNESS_THRESHOLDS_HIGH then .high
  else if daysSinceUpdate > FRESHNESS_THRESHOLDS_MEDIUM then .medium
  else .low

/-- FreshnessMonitor.getCompetitorFreshness: floor(random * 60) + 15 with the
random draw in [0, 1) made an explicit argument. -/
def getCompetitorFreshness (randomDraw : ℚ) : ℚ :=
  ((⌊randomDraw * 60⌋ : ℤ) : ℚ) + 15

/-- FreshnessMonitor.extractLastUpdated: the explicit date in milliseconds when
one is found in the document, otherwise the current date. -/
def extractLastUpdated (explicitDate : Option ℚ) (now : ℚ) : ℚ :=
  explicitDate.getD now

/-- FreshnessMonitor.calculateDaysSince: ceil(|now - date| / millisecondsPerDay). -/
def calculateDaysSince (now date : ℚ) : ℚ :=
  ((⌈|now - date| / 86400000⌉ : ℤ) : ℚ)

/-! ## Entity score (EntityOptimizer.analyzeEntities) -/

/-- Features read by EntityOptimizer.analyzeEntities: the number of valid JSON-LD
schema scripts, brand mentions, and three structured-data indicators. -/
structure EntityFeatures where
  validSchemaScripts : ℕ
  brandMentions : ℕ
  hasItemscope : Bool
  hasAddress : Bool
  hasAuthor : Bool
deriving DecidableEq, Repr

/-- EntityOptimizer.analyzeEntities score: 0.1 per valid schema script,
min(mentions * 0.05, 0.3) for brand mentions, fixed bonuses for structured-data
indicators, capped at 1. -/
def analyzeEntitiesScore (f : EntityFeatures) : ℚ :=
  let s := (f.validSchemaScripts : ℚ) * 0.1
  let s := s + min ((f.brandMentions : ℚ) * 0.05) 0.3
  let s := s + (if f.hasItemscope then 0.1 else 0)
  let s := s + (if f.hasAddress then 0.05 else 0)
  let s := s + (if f.hasAuthor then 0.1 else 0)
  min s 1

/-! ## Structure score (ContentStructurer) -/

/-- ContentStructurer.calculateReadabilityScore, as a function of the word count,
sentence count and element counts it reads from the document. Note that in
JavaScript splitting the empty string on whitespace yields one empty token, so
the word count of the empty document is 1. -/
def calculateReadabilityScore (wordCount sentenceCount h2h3Count listCount tableCount : ℕ) : ℚ :=
  let avgWordsPerSentence : ℚ := (wordCount : ℚ) / ((max sentenceCount 1 : ℕ) : ℚ)
  let s : ℚ := 1
  let s := if avgWordsPerSentence > 20 then s - 0.2 else s
  let s := if avgWordsPerSentence > 25 then s - 0.3 else s
  let s := if h2h3Count > 3 then s + 0.1 else s
  let s := if listCount > 0 then s + 0.1 else s
  let s := if tableCount > 0 then s + 0.1 else s
  max 0 (min 1 s)

/-- ContentStructurer.calculateStructureScore: 0.3 times the readability score
plus fixed bonuses for headings, FAQs, tables and lists, capped at 1. -/
def calculateStructureScore (readabilityScore : ℚ)
    (headingCount faqCount tableCount listCount : ℕ) : ℚ :=
  let s := readabilityScore * 0.3
  let s := if headingCount > 3 then s + 0.2 else s
  let s := if faqCount > 2 then s + 0.2 else s
  let s := if tableCount > 0 then s + 0.15 else s
  let s := if listCount > 1 then s + 0.15 else s
  min 1 s

/-- The readability score of the empty document: no sentences, one (empty) word
token, no structural elements. -/
def emptyDocReadability : ℚ := calculateReadabilityScore 1 0 0 0 0

/-- The structure score of the empty document: no headings, FAQs, tables or
lists. -/
def emptyDocStructureScore : ℚ := calculateStructureScore emptyDocReadability 0 0 0 0

/-! ## AI/human balance (AIContentBalancer.analyzeBalance) -/

/-- The ratio humanScore / (aiScore + humanScore) computed by analyzeBalance.
JavaScript produces NaN (or an infinity) when the denominator is zero; this is
modelled by none. -/
def balanceRatio (aiScore humanScore : ℚ) : Option ℚ :=
  if aiScore + humanScore = 0 then none
  else some (humanScore / (aiScore + humanScore))

/-! ## Overall score (ReportGenerator) -/

/-- The four component scores of the EEATAnalysis record in types.ts. -/
structure EEATAnalysisScores where
  expertise : ℚ
  experience : ℚ
  authoritativeness : ℚ
  trustworthiness : ℚ
deriving DecidableEq, Repr

/-- ReportGenerator.calculateEEATAverage: the unweighted mean of the four
component scores, expressed as a percentage. -/
def calculateEEATAverage (eeat : EEATAnalysisScores) : ℚ :=
  ((eeat.expertise + eeat.experience + eeat.authoritativeness + eeat.trustworthiness) / 4) * 100

/-- The keys of the weights object in ReportGenerator.calculateOverallScore, in
insertion order. -/
inductive OverallKey where
  | entity
  | citation
  | structureKey
  | eeat
  | visibility
deriving DecidableEq, Repr

/-- The weights object of ReportGenerator.calculateOverallScore. -/
def overallWeight : OverallKey → ℚ
  | .entity => 0.2
  | .citation => 0.25
  | .structureKey => 0.15
  | .eeat => 0.2
  | .visibility => 0.2

/-- The fields of the ContentAnalysis record read by calculateOverallScore. -/
structure AnalysisScores where
  entityScore : ℚ
  aiCitationPotential : ℚ
  structureScore : ℚ
  eeatSignals : EEATAnalysisScores
deriving DecidableEq, Repr

/-- The scores object of ReportGenerator.calculateOverallScore: the eeat entry is
calculateEEATAverage divided by 100. -/
def overallScoreEntry (a : AnalysisScores) (aiVisibilityIndex : ℚ) : OverallKey → ℚ
  | .entity => a.entityScore
  | .citation => a.aiCitationPotential
  | .structureKey => a.structureScore
  | .eeat => calculateEEATAverage a.eeatSignals / 100
  | .visibility => aiVisibilityIndex

/-- The iteration order of Object.entries over the weights object. -/
def overallKeys : List OverallKey :=
  [.entity, .citation, .structureKey, .eeat, .visibility]

/-- ReportGenerator.calculateOverallScore: accumulate score times weight over the
entries of the weights object. -/
def calculateOverallScore (a : AnalysisScores) (aiVisibilityIndex : ℚ) : ℚ :=
  overallKeys.foldl (fun acc k => acc + overallScoreEntry a aiVisibilityIndex k * overallWeight k) 0

/-- The E-E-A-T aggregate as the spec describes the EEAT_WEIGHTS table would
weight it: 0.3 expertise, 0.25 experience, 0.25 authoritativeness,
0.2 trustworthiness. Stated for comparison with calculateEEATAverage. -/
def eeatWeightsCombination (eeat : EEATAnalysisScores) : ℚ :=
  EEAT_WEIGHTS_EXPERTISE * eeat.expertise
    + EEAT_WEIGHTS_EXPERIENCE * eeat.experience
    + EEAT_WEIGHTS_AUTHORITATIVENESS * eeat.authoritativeness
    + EEAT_WEIGHTS_TRUSTWORTHINESS * eeat.trustworthiness

/-! ## IEEE-754 binary64 model of the overall score

JavaScript numbers are binary64 doubles: every arithmetic operation rounds its
exact result to 53 significand bits, to nearest, ties to even. The following
models that rounding on exact rationals, for the positive normal-range
magnitudes arising in calculateOverallScore (no overflow, infinity, NaN or
subnormal handling is needed there). -/

/-- Round a rational to the nearest integer, ties to even. -/
def roundHalfEven (m : ℚ) : ℤ :=
  let q := ⌊m⌋
  if m - q < 1 / 2 then q
  else if 1 / 2 < m - q then q + 1
  else if q % 2 = 0 then q else q + 1

/-- Round a rational to the nearest integer multiple of 2 ^ e, ties to even. -/
def roundAtExp (x : ℚ) (e : ℤ) : ℚ :=
  ((roundHalfEven (x / 2 ^ e) : ℤ) : ℚ) * 2 ^ e

/-- IEEE-754 binary64 rounding of an exact rational: a nonzero value with
magnitude in [2 ^ e, 2 ^ (e + 1)) is rounded to a 53-bit significand, that is,
to a multiple of 2 ^ (e - 52), to nearest, ties to even. -/
def roundDouble (x : ℚ) : ℚ :=
  if x = 0 then 0
  else if 0 < x then roundAtExp x (Int.log 2 x - 52)
  else -roundAtExp (-x) (Int.log 2 (-x) - 52)

/-- The binary64 result of a JavaScript addition of two doubles. -/
def jsAdd (a b : ℚ) : ℚ := roundDouble (a + b)

/-- The binary64 result of a JavaScript multiplication of two doubles. -/
def jsMul (a b : ℚ) : ℚ := roundDouble (a * b)

/-- The binary64 result of a JavaScript division of two doubles. -/
def jsDiv (a b : ℚ) : ℚ := roundDouble (a / b)

/-- The binary64 double denoted by a JavaScript number literal whose exact
decimal value is x. -/
def jsNum (x : ℚ) : ℚ := roundDouble x

/-- ReportGenerator.calculateEEATAverage under binary64 semantics: the
left-associated sum of the four components, divided by 4 and scaled by 100,
every operation rounded. -/
def calculateEEATAverageIEEE (eeat : EEATAnalysisScores) : ℚ :=
  jsMul (jsDiv (jsAdd (jsAdd (jsAdd eeat.expertise eeat.experience)
    eeat.authoritativeness) eeat.trustworthiness) 4) 100

/-- The scores object of calculateOverallScore under binary64 semantics: the
eeat entry divides the E-E-A-T average by 100 with a rounded division. -/
def overallScoreEntryIEEE (a : AnalysisScores) (aiVisibilityIndex : ℚ) : OverallKey → ℚ
  | .entity => a.entityScore
  | .citation => a.aiCitationPotential
  | .structureKey => a.structureScore
  | .eeat => jsDiv (calculateEEATAverageIEEE a.eeatSignals) 100
  | .visibility => aiVisibilityIndex

/-- ReportGenerator.calculateOverallScore under binary64 semantics: the
accumulation overall += score * weight with rounded addition and
multiplication, the weight literals denoting their binary64 values. -/
def calculateOverallScoreIEEE (a : AnalysisScores) (aiVisibilityIndex : ℚ) : ℚ :=
  overallKeys.foldl
    (fun acc k => jsAdd acc (jsMul (overallScoreEntryIEEE a aiVisibilityIndex k)
      (jsNum (overallWeight k)))) 0

/-- The binary64 double denoted by the literal 0.8, the dimension score of the
spec scenario. -/
def double08 : ℚ := jsNum 0.8

/-! ## Recommendations (AIOptimizer.generateRecommendations) -/

/-- The recommendation types of types.ts that generateRecommendations emits. -/
inductive RecommendationType where
  | add_schema
  | improve_structure
  | add_author_bio
  | update_content
  | add_citations
  | optimize_for_ai
  | balance_ai_content
deriving DecidableEq, Repr

/-- The priority levels of the Recommendation record in types.ts. -/
inductive RecPriority where
  | low
  | medium
  | high
deriving DecidableEq, Repr

/-- Numeric rank of a priority, for stating order properties: high outranks
medium outranks low. -/
def priorityRank : RecPriority → ℕ
  | .low => 0
  | .medium => 1
  | .high => 2

/-- The Recommendation record of types.ts. -/
structure Recommendation where
  type : RecommendationType
  priority : RecPriority
  description : String
  implementation : String
  estimatedImpact : ℚ
deriving DecidableEq, Repr

/-- The add_schema recommendation emitted when the entity score is below 0.6. -/
def schemaRec : Recommendation :=
  { type := .add_schema, priority := .high
    description := "Add comprehensive schema markup to enhance entity recognition"
    implementation := "Use EntityOptimizer.generateSchema to create appropriate schemas"
    estimatedImpact := 0.25 }

/-- The improve_structure recommendation emitted when the structure score is
below 0.7. -/
def structureRec : Recommendation :=
  { type := .improve_structure, priority := .medium
    description := "Restructure content with FAQs, tables, and lists for better AI parsing"
    implementation := "Apply ContentStructurer.restructureContent to improve formatting"
    estimatedImpact := 0.2 }

/-- The add_author_bio recommendation emitted when E-E-A-T authoritativeness is
below 0.5. -/
def authorBioRec : Recommendation :=
  { type := .add_author_bio, priority := .high
    description := "Add detailed author bios with credentials and expertise signals"
    implementation := "Use EEATSignalBuilder.createAuthorBio with proper schema"
    estimatedImpact := 0.3 }

/-- The update_content recommendation emitted when the freshness urgency is high
or critical. -/
def updateContentRec : Recommendation :=
  { type := .update_content, priority := .high
    description := "Content is stale compared to competitors, requires immediate update"
    implementation := "Use FreshnessMonitor.suggestUpdates for specific update recommendations"
    estimatedImpact := 0.35 }

/-- The fields of the analysis data read by AIOptimizer.generateRecommendations. -/
structure RecommendationInput where
  entityScore : ℚ
  structureScore : ℚ
  eeatAuthoritativeness : ℚ
  freshnessUrgency : UpdateUrgency
deriving DecidableEq, Repr

/-- AIOptimizer.generateRecommendations: the four threshold rules, appended in
declaration order. -/
def generateRecommendations (d : RecommendationInput) : List Recommendation :=
  (if d.entityScore < 0.6 then [schemaRec] else [])
  ++ (if d.structureScore < 0.7 then [structureRec] else [])
  ++ (if d.eeatAuthoritativeness < 0.5 then [authorBioRec] else [])
  ++ (if d.freshnessUrgency = .high ∨ d.freshnessUrgency = .critical then [updateContentRec] else [])

/-- The ordering the specification demands of the recommendation list: priorities
never increase along the list. -/
def orderedByDescendingPriority (l : List Recommendation) : Prop :=
  l.Pairwise fun a b => priorityRank b.priority ≤ priorityRank a.priority

/-! ## Helper lemmas -/

theorem clamp01_nonneg (x : ℚ) : 0 ≤ max 0 (min 1 x) := le_max_left 0 _

theorem clamp01_le_one (x : ℚ) : max 0 (min 1 x) ≤ 1 :=
  max_le (by norm_num) (min_le_left 1 x)

theorem clamp01_lipschitz (x y : ℚ) : |max 0 (min 1 x) - max 0 (min 1 y)| ≤ |x - y| := by
  rw [max_comm 0 (min 1 x), max_comm 0 (min 1 y)]
  calc |max (min 1 x) 0 - max (min 1 y) 0|
      ≤ |min 1 x - min 1 y| := abs_max_sub_max_le_abs _ _ _
    _ ≤ max |1 - 1| |x - y| := abs_min_sub_min_le_max 1 x 1 y
    _ = |x - y| := by simp

theorem calculateFreshnessScore_nonneg (d c : ℚ) : 0 ≤ calculateFreshnessScore d c := by
  simp only [calculateFreshnessScore]
  exact clamp01_nonneg _

theorem calculateFreshnessScore_le_one (d c : ℚ) : calculateFreshnessScore d c ≤ 1 := by
  simp only [calculateFreshnessScore]
  exact clamp01_le_one _

theorem calculateSignalScore_mem_unit (signals : List EEATSignal)
    (h : ∀ s ∈ signals, 0 ≤ s.strength) :
    0 ≤ calculateSignalScore signals ∧ calculateSignalScore signals ≤ 1 := by
  unfold calculateSignalScore
  rcases signals with _ | ⟨s, rest⟩
  · simp
  · simp only [List.isEmpty_cons, Bool.false_eq_true, if_false]
    refine ⟨le_min ?_ (by norm_num), min_le_right _ _⟩
    refine div_nonneg (List.sum_nonneg ?_) (by positivity)
    intro x hx
    obtain ⟨sig, hsig, rfl⟩ := List.mem_map.mp hx
    exact h sig hsig

theorem analyzeExpertise_strength_nonneg (f : ExpertiseFeatures) :
    ∀ s ∈ analyzeExpertise f, 0 ≤ s.strength := by
  intro s hs
  simp only [analyzeExpertise, List.mem_append, List.mem_map] at hs
  rcases hs with (hmap | hcred) | hrep
  · obtain ⟨len, _, rfl⟩ := hmap
    dsimp only
    split <;> norm_num
  · revert hcred
    split <;> intro hcred <;> simp only [List.mem_singleton, List.not_mem_nil] at hcred
    subst hcred; norm_num
  · have := List.eq_of_mem_replicate hrep
    subst this; norm_num

theorem analyzeExperience_strength_nonneg (f : ExperienceFeatures) :
    ∀ s ∈ analyzeExperience f, 0 ≤ s.strength := by
  intro s hs
  simp only [analyzeExperience, List.mem_append] at hs
  rcases hs with (h1 | h2) | h3
  · revert h1
    split <;> intro h1 <;> simp only [List.mem_singleton, List.not_mem_nil] at h1
    subst h1
    exact le_min (by positivity) (by norm_num)
  · revert h2
    split <;> intro h2 <;> simp only [List.mem_singleton, List.not_mem_nil] at h2
    subst h2; norm_num
  · revert h3
    split <;> intro h3 <;> simp only [List.mem_singleton, List.not_mem_nil] at h3
    subst h3; norm_num

theorem analyzeAuthoritativeness_strength_nonneg (f : AuthoritativenessFeatures) :
    ∀ s ∈ analyzeAuthoritativeness f, 0 ≤ s.strength := by
  intro s hs
  simp only [analyzeAuthoritativeness, List.mem_append] at hs
  rcases hs with (h1 | h2) | h3
  · revert h1
    split <;> intro h1 <;> simp only [List.mem_singleton, List.not_mem_nil] at h1
    subst h1
    exact le_min (by positivity) (by norm_num)
  · revert h2
    split <;> intro h2 <;> simp only [List.mem_singleton, List.not_mem_nil] at h2
    subst h2
    exact le_min (by positivity) (by norm_num)
  · revert h3
    split <;> intro h3 <;> simp only [List.mem_singleton, List.not_mem_nil] at h3
    subst h3; norm_num

theorem analyzeTrustworthiness_strength_nonneg (f : TrustworthinessFeatures) :
    ∀ s ∈ analyzeTrustworthiness f, 0 ≤ s.strength := by
  intro s hs
  simp only [analyzeTrustworthiness, List.mem_append] at hs
  rcases hs with ((h1 | h2) | h3) | h4
  · revert h1
    split <;> intro h1 <;> simp only [List.mem_singleton, List.not_mem_nil] at h1
    subst h1; norm_num
  · revert h2
    split <;> intro h2 <;> simp only [List.mem_singleton, List.not_mem_nil] at h2
    subst h2; norm_num
  · revert h3
    split <;> intro h3 <;> simp only [List.mem_singleton, List.not_mem_nil] at h3
    subst h3; norm_num
  · revert h4
    split <;> intro h4 <;> simp only [List.mem_singleton, List.not_mem_nil] at h4
    subst h4; norm_num

theorem analyzeEntitiesScore_mem_unit (f : EntityFeatures) :
    0 ≤ analyzeEntitiesScore f ∧ analyzeEntitiesScore f ≤ 1 := by
  simp only [analyzeEntitiesScore]
  refine ⟨le_min ?_ (by norm_num), min_le_right _ _⟩
  have h1 : (0 : ℚ) ≤ (f.validSchemaScripts : ℚ) * 0.1 := by positivity
  have h2 : (0 : ℚ) ≤ min ((f.brandMentions : ℚ) * 0.05) 0.3 :=
    le_min (by positivity) (by norm_num)
  split_ifs <;> linarith

theorem calculateReadabilityScore_mem_unit (wc sc h2h3 ls ts : ℕ) :
    0 ≤ calculateReadabilityScore wc sc h2h3 ls ts
      ∧ calculateReadabilityScore wc sc h2h3 ls ts ≤ 1 := by
  simp only [calculateReadabilityScore]
  exact ⟨clamp01_nonneg _, clamp01_le_one _⟩

theorem calculateStructureScore_mem_unit (r : ℚ) (hr0 : 0 ≤ r)
    (hc fc tc lc : ℕ) :
    0 ≤ calculateStructureScore r hc fc tc lc
      ∧ calculateStructureScore r hc fc tc lc ≤ 1 := by
  simp only [calculateStructureScore]
  refine ⟨le_min (by norm_num) ?_, min_le_left _ _⟩
  have h1 : (0 : ℚ) ≤ r * 0.3 := by positivity
  split_ifs <;> linarith

theorem calculateCitationWorthiness_mem_unit (data : CitationData) :
    0 ≤ calculateCitationWorthiness data ∧ calculateCitationWorthiness data ≤ 1 := by
  simp only [calculateCitationWorthiness, CITATION_WORTHINESS_UNIQUE_DATA,
    CITATION_WORTHINESS_EXPERT_QUOTES, CITATION_WORTHINESS_ORIGINAL_RESEARCH,
    CITATION_WORTHINESS_COMPREHENSIVE_COVERAGE]
  refine ⟨le_min ?_ (by norm_num), min_le_right _ _⟩
  have h1 : (0 : ℚ) ≤ min ((data.uniqueInsights.length : ℚ) * 0.05) 0.25 * 0.25 :=
    mul_nonneg (le_min (by positivity) (by norm_num)) (by norm_num)
  have h2 : (0 : ℚ) ≤
      min (((data.dataPoints.filter fun dp => dp.verifiable).length : ℚ) * 0.05) 0.25 * 0.25 :=
    mul_nonneg (le_min (by positivity) (by norm_num)) (by norm_num)
  have h3 : (0 : ℚ) ≤ min ((data.expertQuotes.length : ℚ) * 0.04) 0.2 * 0.2 :=
    mul_nonneg (le_min (by positivity) (by norm_num)) (by norm_num)
  split_ifs <;> linarith

theorem calculateCitationWorthiness_eq_counts (data : CitationData) :
    calculateCitationWorthiness data
      = citationScoreOfCounts data.uniqueInsights.length
          (data.dataPoints.filter fun dp => dp.verifiable).length
          data.dataPoints.length data.expertQuotes.length data.originalResearch := rfl

theorem citationScoreOfCounts_mono {i₁ i₂ v₁ v₂ n₁ n₂ q₁ q₂ : ℕ} {r : Bool}
    (hi : i₁ ≤ i₂) (hv : v₁ ≤ v₂) (hn : n₁ ≤ n₂) (hq : q₁ ≤ q₂) :
    citationScoreOfCounts i₁ v₁ n₁ q₁ r ≤ citationScoreOfCounts i₂ v₂ n₂ q₂ r := by
  unfold citationScoreOfCounts
  have hiq : (i₁ : ℚ) ≤ (i₂ : ℚ) := by exact_mod_cast hi
  have hvq : (v₁ : ℚ) ≤ (v₂ : ℚ) := by exact_mod_cast hv
  have hqq : (q₁ : ℚ) ≤ (q₂ : ℚ) := by exact_mod_cast hq
  refine min_le_min (add_le_add (add_le_add (add_le_add (add_le_add ?_ ?_) ?_) le_rfl) ?_) le_rfl
  · exact mul_le_mul_of_nonneg_right
      (min_le_min (mul_le_mul_of_nonneg_right hiq (by norm_num)) le_rfl)
      (by norm_num [CITATION_WORTHINESS_UNIQUE_DATA])
  · exact mul_le_mul_of_nonneg_right
      (min_le_min (mul_le_mul_of_nonneg_right hvq (by norm_num)) le_rfl)
      (by norm_num [CITATION_WORTHINESS_UNIQUE_DATA])
  · exact mul_le_mul_of_nonneg_right
      (min_le_min (mul_le_mul_of_nonneg_right hqq (by norm_num)) le_rfl)
      (by norm_num [CITATION_WORTHINESS_EXPERT_QUOTES])
  · split_ifs with hA hB
    · exact le_rfl
    · omega
    · norm_num [CITATION_WORTHINESS_COMPREHENSIVE_COVERAGE]
    · exact le_rfl

theorem balanceRatio_mem_unit (ai human : ℚ) (hai : 0 ≤ ai) (hh : 0 ≤ human)
    (hne : ai + human ≠ 0) :
    ∃ q, balanceRatio ai human = some q ∧ 0 ≤ q ∧ q ≤ 1 := by
  have hpos : 0 < ai + human := lt_of_le_of_ne (by linarith) (Ne.symm hne)
  refine ⟨human / (ai + human), ?_, div_nonneg hh hpos.le, ?_⟩
  · simp [balanceRatio, hne]
  · rw [div_le_one hpos]
    linarith

theorem calculateFreshnessScore_eq_base (days c : ℚ) :
    calculateFreshnessScore days c
      = max 0 (min 1 (freshnessBase days + if days < c then 0.2 else 0)) := by
  simp only [calculateFreshnessScore, freshnessBase]
  by_cases hdc : days < c
  · simp [hdc]
  · simp [hdc]

theorem ite_singleton_sublist {α : Type} (c : Prop) [Decidable c] (x : α) :
    List.Sublist (if c then [x] else []) [x] := by
  split
  · exact List.Sublist.refl _
  · exact List.nil_sublist _

theorem recommendationRules_nodup :
    [schemaRec, structureRec, authorBioRec, updateContentRec].Nodup := by
  simp [schemaRec, structureRec, authorBioRec, updateContentRec]

theorem int_log_eq_of_bounds {x : ℚ} {e : ℤ} (hle : (2 : ℚ) ^ e ≤ x)
    (hlt : x < (2 : ℚ) ^ (e + 1)) : Int.log 2 x = e := by
  have hx : 0 < x := lt_of_lt_of_le (by positivity) hle
  have h1 : e ≤ Int.log 2 x := by
    rw [← Int.zpow_le_iff_le_log (by norm_num) hx]
    exact_mod_cast hle
  have h2 : Int.log 2 x < e + 1 := by
    rw [← Int.lt_zpow_iff_log_lt (by norm_num) hx]
    exact_mod_cast hlt
  omega

theorem roundDouble_pos_eq {x : ℚ} (e : ℤ) (hle : (2 : ℚ) ^ e ≤ x)
    (hlt : x < (2 : ℚ) ^ (e + 1)) : roundDouble x = roundAtExp x (e - 52) := by
  have hx : 0 < x := lt_of_lt_of_le (by positivity) hle
  simp only [roundDouble]
  rw [if_neg hx.ne', if_pos hx, int_log_eq_of_bounds hle hlt]

theorem roundAtExp_neg (x : ℚ) (k : ℕ) :
    roundAtExp x (-(k : ℤ)) = ((roundHalfEven (x * 2 ^ k) : ℤ) : ℚ) / 2 ^ k := by
  simp only [roundAtExp]
  rw [zpow_neg, zpow_natCast, div_eq_mul_inv x (2 ^ k)⁻¹, inv_inv, ← div_eq_mul_inv]

theorem roundDouble_eq_down (x : ℚ) (e : ℤ) (k : ℕ) (q : ℤ)
    (he : e - 52 = -(k : ℤ)) (hle : (2 : ℚ) ^ e ≤ x) (hlt : x < (2 : ℚ) ^ (e + 1))
    (h1 : (q : ℚ) ≤ x * 2 ^ k) (h2 : x * 2 ^ k < (q : ℚ) + 1 / 2) :
    roundDouble x = (q : ℚ) / 2 ^ k := by
  rw [roundDouble_pos_eq e hle hlt, he, roundAtExp_neg]
  have hq : ⌊x * 2 ^ k⌋ = q := Int.floor_eq_iff.mpr ⟨h1, by linarith⟩
  simp only [roundHalfEven]
  rw [hq, if_pos (show x * 2 ^ k - (q : ℚ) < 1 / 2 by linarith)]

theorem roundDouble_eq_up (x : ℚ) (e : ℤ) (k : ℕ) (q : ℤ)
    (he : e - 52 = -(k : ℤ)) (hle : (2 : ℚ) ^ e ≤ x) (hlt : x < (2 : ℚ) ^ (e + 1))
    (h1 : (q : ℚ) + 1 / 2 < x * 2 ^ k) (h2 : x * 2 ^ k < (q : ℚ) + 1) :
    roundDouble x = ((q : ℚ) + 1) / 2 ^ k := by
  rw [roundDouble_pos_eq e hle hlt, he, roundAtExp_neg]
  have hq : ⌊x * 2 ^ k⌋ = q := Int.floor_eq_iff.mpr ⟨by linarith, by linarith⟩
  simp only [roundHalfEven]
  rw [hq, if_neg (show ¬(x * 2 ^ k - (q : ℚ) < 1 / 2) by push_neg; linarith),
    if_pos (show (1 : ℚ) / 2 < x * 2 ^ k - (q : ℚ) by linarith)]
  push_cast
  ring

theorem roundDouble_eq_tie_even (x : ℚ) (e : ℤ) (k : ℕ) (q : ℤ)
    (he : e - 52 = -(k : ℤ)) (hle : (2 : ℚ) ^ e ≤ x) (hlt : x < (2 : ℚ) ^ (e + 1))
    (h1 : x * 2 ^ k = (q : ℚ) + 1 / 2) (hev : q % 2 = 0) :
    roundDouble x = (q : ℚ) / 2 ^ k := by
  rw [roundDouble_pos_eq e hle hlt, he, roundAtExp_neg]
  have hq : ⌊x * 2 ^ k⌋ = q := Int.floor_eq_iff.mpr ⟨by linarith, by linarith⟩
  simp only [roundHalfEven]
  rw [hq, if_neg (show ¬(x * 2 ^ k - (q : ℚ) < 1 / 2) by push_neg; linarith),
    if_neg (show ¬((1 : ℚ) / 2 < x * 2 ^ k - (q : ℚ)) by push_neg; linarith),
    if_pos hev]

theorem roundDouble_eq_tie_odd (x : ℚ) (e : ℤ) (k : ℕ) (q : ℤ)
    (he : e - 52 = -(k : ℤ)) (hle : (2 : ℚ) ^ e ≤ x) (hlt : x < (2 : ℚ) ^ (e + 1))
    (h1 : x * 2 ^ k = (q : ℚ) + 1 / 2) (hodd : q % 2 = 1) :
    roundDouble x = ((q : ℚ) + 1) / 2 ^ k := by
  rw [roundDouble_pos_eq e hle hlt, he, roundAtExp_neg]
  have hq : ⌊x * 2 ^ k⌋ = q := Int.floor_eq_iff.mpr ⟨by linarith, by linarith⟩
  simp only [roundHalfEven]
  rw [hq, if_neg (show ¬(x * 2 ^ k - (q : ℚ) < 1 / 2) by push_neg; linarith),
    if_neg (show ¬((1 : ℚ) / 2 < x * 2 ^ k - (q : ℚ)) by push_neg; linarith),
    if_neg (show ¬(q % 2 = 0) by omega)]
  push_cast
  ring

theorem roundDouble_08 : roundDouble (0.8 : ℚ) = 3602879701896397 / 2 ^ 52 := by
  rw [show (0.8 : ℚ) = (4 / 5 : ℚ) by norm_num,
    roundDouble_eq_up (4 / 5 : ℚ) (-1) 53 7205759403792793 (by norm_num) (by norm_num)
      (by norm_num) (by norm_num) (by norm_num)]
  norm_num

theorem double08_eval : double08 = 3602879701896397 / 2 ^ 52 := roundDouble_08

theorem overallScoreIEEE_allEights_eval :
    calculateOverallScoreIEEE
        ⟨double08, double08, double08, ⟨double08, double08, double08, double08⟩⟩ double08
      = 7205759403792795 / 2 ^ 53 := by
  have e02 : roundDouble (0.2 : ℚ) = (3602879701896397 / 2 ^ 54 : ℚ) := by
    rw [show (0.2 : ℚ) = (1 / 5 : ℚ) by norm_num,
      roundDouble_eq_up (1 / 5 : ℚ) (-3) 55 7205759403792793 (by norm_num) (by norm_num)
        (by norm_num) (by norm_num) (by norm_num)]
    norm_num
  have e025 : roundDouble (0.25 : ℚ) = (1 / 4 : ℚ) := by
    rw [show (0.25 : ℚ) = (1 / 4 : ℚ) by norm_num,
      roundDouble_eq_down (1 / 4 : ℚ) (-2) 54 4503599627370496 (by norm_num) (by norm_num)
        (by norm_num) (by norm_num) (by norm_num)]
    norm_num
  have e015 : roundDouble (0.15 : ℚ) = (5404319552844595 / 2 ^ 55 : ℚ) := by
    rw [show (0.15 : ℚ) = (3 / 20 : ℚ) by norm_num,
      roundDouble_eq_down (3 / 20 : ℚ) (-3) 55 5404319552844595 (by norm_num) (by norm_num)
        (by norm_num) (by norm_num) (by norm_num)]
    norm_num
  have hA1 : jsAdd (3602879701896397 / 2 ^ 52 : ℚ) (3602879701896397 / 2 ^ 52 : ℚ)
      = (3602879701896397 / 2 ^ 51 : ℚ) := by
    rw [jsAdd, show (3602879701896397 / 2 ^ 52 : ℚ) + (3602879701896397 / 2 ^ 52 : ℚ)
        = (3602879701896397 / 2 ^ 51 : ℚ) by norm_num,
      roundDouble_eq_down (3602879701896397 / 2 ^ 51 : ℚ) (0) 52 7205759403792794
        (by norm_num) (by norm_num) (by norm_num) (by norm_num) (by norm_num)]
    norm_num
  have hA2 : jsAdd (3602879701896397 / 2 ^ 51 : ℚ) (3602879701896397 / 2 ^ 52 : ℚ)
      = (1351079888211149 / 2 ^ 49 : ℚ) := by
    rw [jsAdd, show (3602879701896397 / 2 ^ 51 : ℚ) + (3602879701896397 / 2 ^ 52 : ℚ)
        = (10808639105689191 / 2 ^ 52 : ℚ) by norm_num,
      roundDouble_eq_tie_odd (10808639105689191 / 2 ^ 52 : ℚ) (1) 51 5404319552844595
        (by norm_num) (by norm_num) (by norm_num) (by norm_num) (by decide)]
    norm_num
  have hA3 : jsAdd (1351079888211149 / 2 ^ 49 : ℚ) (3602879701896397 / 2 ^ 52 : ℚ)
      = (3602879701896397 / 2 ^ 50 : ℚ) := by
    rw [jsAdd, show (1351079888211149 / 2 ^ 49 : ℚ) + (3602879701896397 / 2 ^ 52 : ℚ)
        = (14411518807585589 / 2 ^ 52 : ℚ) by norm_num,
      roundDouble_eq_tie_even (14411518807585589 / 2 ^ 52 : ℚ) (1) 51 7205759403792794
        (by norm_num) (by norm_num) (by norm_num) (by norm_num) (by decide)]
    norm_num
  have hB1 : jsDiv (3602879701896397 / 2 ^ 50 : ℚ) (4 : ℚ)
      = (3602879701896397 / 2 ^ 52 : ℚ) := by
    rw [jsDiv, show (3602879701896397 / 2 ^ 50 : ℚ) / (4 : ℚ)
        = (3602879701896397 / 2 ^ 52 : ℚ) by norm_num,
      roundDouble_eq_down (3602879701896397 / 2 ^ 52 : ℚ) (-1) 53 7205759403792794
        (by norm_num) (by norm_num) (by norm_num) (by norm_num) (by norm_num)]
    norm_num
  have hB2 : jsMul (3602879701896397 / 2 ^ 52 : ℚ) (100 : ℚ) = (80 : ℚ) := by
    rw [jsMul, show (3602879701896397 / 2 ^ 52 : ℚ) * (100 : ℚ)
        = (90071992547409925 / 2 ^ 50 : ℚ) by norm_num,
      roundDouble_eq_down (90071992547409925 / 2 ^ 50 : ℚ) (6) 46 5629499534213120
        (by norm_num) (by norm_num) (by norm_num) (by norm_num) (by norm_num)]
    norm_num
  have hB3 : jsDiv (80 : ℚ) (100 : ℚ) = (3602879701896397 / 2 ^ 52 : ℚ) := by
    rw [jsDiv, show (80 : ℚ) / (100 : ℚ) = (0.8 : ℚ) by norm_num, roundDouble_08]
  have hT1 : jsMul (3602879701896397 / 2 ^ 52 : ℚ) (3602879701896397 / 2 ^ 54 : ℚ)
      = (1441151880758559 / 2 ^ 53 : ℚ) := by
    rw [jsMul, show (3602879701896397 / 2 ^ 52 : ℚ) * (3602879701896397 / 2 ^ 54 : ℚ)
        = (12980742146337070512478121581609 / 2 ^ 106 : ℚ) by norm_num,
      roundDouble_eq_up (12980742146337070512478121581609 / 2 ^ 106 : ℚ) (-3) 55
        5764607523034235 (by norm_num) (by norm_num) (by norm_num) (by norm_num)
        (by norm_num)]
    norm_num
  have hS1 : jsAdd (0 : ℚ) (1441151880758559 / 2 ^ 53 : ℚ)
      = (1441151880758559 / 2 ^ 53 : ℚ) := by
    rw [jsAdd, show (0 : ℚ) + (1441151880758559 / 2 ^ 53 : ℚ)
        = (1441151880758559 / 2 ^ 53 : ℚ) by norm_num,
      roundDouble_eq_down (1441151880758559 / 2 ^ 53 : ℚ) (-3) 55 5764607523034236
        (by norm_num) (by norm_num) (by norm_num) (by norm_num) (by norm_num)]
    norm_num
  have hT2 : jsMul (3602879701896397 / 2 ^ 52 : ℚ) (1 / 4 : ℚ)
      = (3602879701896397 / 2 ^ 54 : ℚ) := by
    rw [jsMul, show (3602879701896397 / 2 ^ 52 : ℚ) * (1 / 4 : ℚ)
        = (3602879701896397 / 2 ^ 54 : ℚ) by norm_num,
      roundDouble_eq_down (3602879701896397 / 2 ^ 54 : ℚ) (-3) 55 7205759403792794
        (by norm_num) (by norm_num) (by norm_num) (by norm_num) (by norm_num)]
    norm_num
  have hS2 : jsAdd (1441151880758559 / 2 ^ 53 : ℚ) (3602879701896397 / 2 ^ 54 : ℚ)
      = (6485183463413515 / 2 ^ 54 : ℚ) := by
    rw [jsAdd, show (1441151880758559 / 2 ^ 53 : ℚ) + (3602879701896397 / 2 ^ 54 : ℚ)
        = (6485183463413515 / 2 ^ 54 : ℚ) by norm_num,
      roundDouble_eq_down (6485183463413515 / 2 ^ 54 : ℚ) (-2) 54 6485183463413515
        (by norm_num) (by norm_num) (by norm_num) (by norm_num) (by norm_num)]
    norm_num
  have hT3 : jsMul (3602879701896397 / 2 ^ 52 : ℚ) (5404319552844595 / 2 ^ 55 : ℚ)
      = (1080863910568919 / 2 ^ 53 : ℚ) := by
    rw [jsMul, show (3602879701896397 / 2 ^ 52 : ℚ) * (5404319552844595 / 2 ^ 55 : ℚ)
        = (19471113219505603967277331424215 / 2 ^ 107 : ℚ) by norm_num,
      roundDouble_eq_down (19471113219505603967277331424215 / 2 ^ 107 : ℚ) (-4) 56
        8646911284551352 (by norm_num) (by norm_num) (by norm_num) (by norm_num)
        (by norm_num)]
    norm_num
  have hS3 : jsAdd (6485183463413515 / 2 ^ 54 : ℚ) (1080863910568919 / 2 ^ 53 : ℚ)
      = (8646911284551353 / 2 ^ 54 : ℚ) := by
    rw [jsAdd, show (6485183463413515 / 2 ^ 54 : ℚ) + (1080863910568919 / 2 ^ 53 : ℚ)
        = (8646911284551353 / 2 ^ 54 : ℚ) by norm_num,
      roundDouble_eq_down (8646911284551353 / 2 ^ 54 : ℚ) (-2) 54 8646911284551353
        (by norm_num) (by norm_num) (by norm_num) (by norm_num) (by norm_num)]
    norm_num
  have hS4 : jsAdd (8646911284551353 / 2 ^ 54 : ℚ) (1441151880758559 / 2 ^ 53 : ℚ)
      = (1441151880758559 / 2 ^ 51 : ℚ) := by
    rw [jsAdd, show (8646911284551353 / 2 ^ 54 : ℚ) + (1441151880758559 / 2 ^ 53 : ℚ)
        = (11529215046068471 / 2 ^ 54 : ℚ) by norm_num,
      roundDouble_eq_tie_odd (11529215046068471 / 2 ^ 54 : ℚ) (-1) 53 5764607523034235
        (by norm_num) (by norm_num) (by norm_num) (by norm_num) (by decide)]
    norm_num
  have hS5 : jsAdd (1441151880758559 / 2 ^ 51 : ℚ) (1441151880758559 / 2 ^ 53 : ℚ)
      = (7205759403792795 / 2 ^ 53 : ℚ) := by
    rw [jsAdd, show (1441151880758559 / 2 ^ 51 : ℚ) + (1441151880758559 / 2 ^ 53 : ℚ)
        = (7205759403792795 / 2 ^ 53 : ℚ) by norm_num,
      roundDouble_eq_down (7205759403792795 / 2 ^ 53 : ℚ) (-1) 53 7205759403792795
        (by norm_num) (by norm_num) (by norm_num) (by norm_num) (by norm_num)]
    norm_num
  simp only [calculateOverallScoreIEEE, overallKeys, List.foldl_cons, List.foldl_nil,
    overallScoreEntryIEEE, overallWeight, calculateEEATAverageIEEE, double08, jsNum]
  rw [roundDouble_08, e02, e025, e015]
  rw [hA1, hA2, hA3, hB1, hB2, hB3]
  rw [hT1, hS1, hT2, hS2, hT3, hS3, hS4, hS5]

/-! ## Claims -/

/-- C1 (corrected): every per-dimension score — entity, structure, the four
E-E-A-T components, freshness, citation worthiness — lies in [0, 1]; the
AI/human balance ratio lies in [0, 1] whenever the AI score and the human score
do not sum to zero, but is NaN (undefined) when both are zero, as on the empty
document. -/
theorem c1_dimension_scores_unit_interval :
    (∀ f : EntityFeatures, 0 ≤ analyzeEntitiesScore f ∧ analyzeEntitiesScore f ≤ 1)
    ∧ (∀ wc sc h2h3 ls ts hc fc tc lc : ℕ,
        0 ≤ calculateStructureScore (calculateReadabilityScore wc sc h2h3 ls ts) hc fc tc lc
          ∧ calculateStructureScore (calculateReadabilityScore wc sc h2h3 ls ts) hc fc tc lc ≤ 1)
    ∧ (∀ f : ExpertiseFeatures,
        0 ≤ calculateSignalScore (analyzeExpertise f)
          ∧ calculateSignalScore (analyzeExpertise f) ≤ 1)
    ∧ (∀ f : ExperienceFeatures,
        0 ≤ calculateSignalScore (analyzeExperience f)
          ∧ calculateSignalScore (analyzeExperience f) ≤ 1)
    ∧ (∀ f : AuthoritativenessFeatures,
        0 ≤ calculateSignalScore (analyzeAuthoritativeness f)
          ∧ calculateSignalScore (analyzeAuthoritativeness f) ≤ 1)
    ∧ (∀ f : TrustworthinessFeatures,
        0 ≤ calculateSignalScore (analyzeTrustworthiness f)
          ∧ calculateSignalScore (analyzeTrustworthiness f) ≤ 1)
    ∧ (∀ d c : ℚ, 0 ≤ calculateFreshnessScore d c ∧ calculateFreshnessScore d c ≤ 1)
    ∧ (∀ data : CitationData,
        0 ≤ calculateCitationWorthiness data ∧ calculateCitationWorthiness data ≤ 1)
    ∧ (∀ aiScore humanScore : ℚ, 0 ≤ aiScore → 0 ≤ humanScore → aiScore + humanScore ≠ 0 →
        ∃ q, balanceRatio aiScore humanScore = some q ∧ 0 ≤ q ∧ q ≤ 1) := by
  refine ⟨analyzeEntitiesScore_mem_unit, ?_, ?_, ?_, ?_, ?_, ?_,
    calculateCitationWorthiness_mem_unit, balanceRatio_mem_unit⟩
  · intro wc sc h2h3 ls ts hc fc tc lc
    exact calculateStructureScore_mem_unit _ (calculateReadabilityScore_mem_unit wc sc h2h3 ls ts).1
      hc fc tc lc
  · intro f
    exact calculateSignalScore_mem_unit _ (analyzeExpertise_strength_nonneg f)
  · intro f
    exact calculateSignalScore_mem_unit _ (analyzeExperience_strength_nonneg f)
  · intro f
    exact calculateSignalScore_mem_unit _ (analyzeAuthoritativeness_strength_nonneg f)
  · intro f
    exact calculateSignalScore_mem_unit _ (analyzeTrustworthiness_strength_nonneg f)
  · intro d c
    exact ⟨calculateFreshnessScore_nonneg d c, calculateFreshnessScore_le_one d c⟩

/-- C1 witness: the balance-ratio component of the theorem at the concrete
scores 0.2 and 0.3. -/
theorem c1_dimension_scores_unit_interval_witness :
    ∃ q, balanceRatio 0.2 0.3 = some q ∧ 0 ≤ q ∧ q ≤ 1 :=
  c1_dimension_scores_unit_interval.2.2.2.2.2.2.2.2 0.2 0.3 (by norm_num) (by norm_num)
    (by norm_num)

/-- C1 counterexample: on the empty document both scores are zero and the ratio
humanScore / (aiScore + humanScore) is NaN, not a number in [0, 1]. -/
theorem c1_balance_ratio_nan_counterexample : balanceRatio 0 0 = none := by
  simp [balanceRatio]

/-- C2 (corrected): citation worthiness never decreases when a unique insight, a
data point, or an expert quote is added; the E-E-A-T signal score never
decreases when the added signal has non-negative strength at least the current
mean strength, but it is a capped mean, not monotone in arbitrary positive
signals. -/
theorem c2_positive_signal_monotonicity :
    (∀ (data : CitationData) (s : String),
        calculateCitationWorthiness data
          ≤ calculateCitationWorthiness { data with uniqueInsights := s :: data.uniqueInsights })
    ∧ (∀ (data : CitationData) (dp : DataPoint),
        calculateCitationWorthiness data
          ≤ calculateCitationWorthiness { data with dataPoints := dp :: data.dataPoints })
    ∧ (∀ (data : CitationData) (q : ExpertQuote),
        calculateCitationWorthiness data
          ≤ calculateCitationWorthiness { data with expertQuotes := q :: data.expertQuotes })
    ∧ (∀ (signals : List EEATSignal) (s : EEATSignal), 0 ≤ s.strength →
        (signals.map EEATSignal.strength).sum ≤ s.strength * signals.length →
        calculateSignalScore signals ≤ calculateSignalScore (s :: signals)) := by
  refine ⟨?_, ?_, ?_, ?_⟩
  · intro data s
    rw [calculateCitationWorthiness_eq_counts, calculateCitationWorthiness_eq_counts]
    exact citationScoreOfCounts_mono (by simp [Nat.le_succ]) le_rfl le_rfl le_rfl
  · intro data dp
    rw [calculateCitationWorthiness_eq_counts, calculateCitationWorthiness_eq_counts]
    refine citationScoreOfCounts_mono le_rfl ?_ (by simp [Nat.le_succ]) le_rfl
    simp only [List.filter_cons]
    split
    · simp [Nat.le_succ]
    · simp
  · intro data q
    rw [calculateCitationWorthiness_eq_counts, calculateCitationWorthiness_eq_counts]
    exact citationScoreOfCounts_mono le_rfl le_rfl le_rfl (by simp [Nat.le_succ])
  · intro signals s hs hmean
    unfold calculateSignalScore
    rcases signals with _ | ⟨a, rest⟩
    · simp only [List.isEmpty_nil, if_true, List.isEmpty_cons, Bool.false_eq_true, if_false]
      refine le_min ?_ (by norm_num)
      refine div_nonneg ?_ (by positivity)
      simpa using hs
    · simp only [List.isEmpty_cons, Bool.false_eq_true, if_false]
      refine min_le_min ?_ le_rfl
      have hn : (0 : ℚ) < ((a :: rest).length : ℚ) := by
        push_cast [List.length_cons]
        positivity
      have hn1 : (0 : ℚ) < (((s :: a :: rest).length : ℕ) : ℚ) := by
        push_cast [List.length_cons]
        positivity
      rw [div_le_div_iff₀ hn hn1]
      have hlen : (((s :: a :: rest).length : ℕ) : ℚ) = ((a :: rest).length : ℚ) + 1 := by
        push_cast [List.length_cons]
        ring
      have hsum : ((s :: a :: rest).map EEATSignal.strength).sum
          = s.strength + ((a :: rest).map EEATSignal.strength).sum := by
        simp
      rw [hlen, hsum]
      have hm : ((a :: rest).map EEATSignal.strength).sum
          ≤ s.strength * ((a :: rest).length : ℚ) := hmean
      nlinarith [hm]

/-- C2 witness: the data-point component of the theorem at a concrete signal
bag, and the E-E-A-T component at a concrete signal list. -/
theorem c2_positive_signal_monotonicity_witness :
    calculateCitationWorthiness ⟨[], [], false, []⟩
      ≤ calculateCitationWorthiness ⟨[], [⟨"42%", "Referenced", true, true⟩], false, []⟩ :=
  c2_positive_signal_monotonicity.2.1 ⟨[], [], false, []⟩ ⟨"42%", "Referenced", true, true⟩

/-- C2 counterexample: the expertise analyzer emits one more positive-strength
author_bio signal for the second document, yet the expertise score drops from
0.8 to 0.6, because calculateSignalScore averages strengths. -/
theorem c2_eeat_monotonicity_counterexample :
    calculateSignalScore (analyzeExpertise ⟨[60, 30], false, 0⟩)
        < calculateSignalScore (analyzeExpertise ⟨[60], false, 0⟩)
      ∧ (analyzeExpertise ⟨[60, 30], false, 0⟩).length
          = (analyzeExpertise ⟨[60], false, 0⟩).length + 1
      ∧ ∀ s ∈ analyzeExpertise ⟨[60, 30], false, 0⟩, 0 < s.strength := by
  have h2 : analyzeExpertise ⟨[60, 30], false, 0⟩
      = [⟨.author_bio, 0.8, "Author information found", "element"⟩,
         ⟨.author_bio, 0.4, "Author information found", "element"⟩] := by
    norm_num [analyzeExpertise]
  have h1 : analyzeExpertise ⟨[60], false, 0⟩
      = [⟨.author_bio, 0.8, "Author information found", "element"⟩] := by
    norm_num [analyzeExpertise]
  refine ⟨?_, ?_, ?_⟩
  · rw [h1, h2]
    norm_num [calculateSignalScore, min_def]
  · rw [h1, h2]
    rfl
  · rw [h2]
    intro s hs
    simp only [List.mem_cons, List.not_mem_nil, or_false] at hs
    rcases hs with rfl | rfl <;> norm_num

/-- C3 (corrected): the empty document scores 0 on the entity, E-E-A-T and
citation-worthiness dimensions with an empty signal list, and no scorer fails;
but its structure score is 0.3 (the readability default weighted by 0.3) and its
freshness score is 1 (the missing date defaults to the current instant). -/
theorem c3_empty_document_scores :
    analyzeEntitiesScore ⟨0, 0, false, false, false⟩ = 0
    ∧ analyzeExpertise ⟨[], false, 0⟩ = []
    ∧ analyzeExperience ⟨0, 0, 0⟩ = []
    ∧ analyzeAuthoritativeness ⟨0, 0, 0⟩ = []
    ∧ analyzeTrustworthiness ⟨0, 0, false, 0⟩ = []
    ∧ calculateSignalScore [] = 0
    ∧ calculateCitationWorthiness ⟨[], [], false, []⟩ = 0
    ∧ emptyDocStructureScore = 0.3
    ∧ ∀ now c : ℚ, calculateDaysSince now (extractLastUpdated none now) = 0
        ∧ calculateFreshnessScore (calculateDaysSince now (extractLastUpdated none now)) c = 1 := by
  refine ⟨?_, ?_, ?_, ?_, ?_, ?_, ?_, ?_, ?_⟩
  · norm_num [analyzeEntitiesScore, min_def]
  · norm_num [analyzeExpertise]
  · norm_num [analyzeExperience]
  · norm_num [analyzeAuthoritativeness]
  · norm_num [analyzeTrustworthiness]
  · norm_num [calculateSignalScore]
  · norm_num [calculateCitationWorthiness, CITATION_WORTHINESS_UNIQUE_DATA,
      CITATION_WORTHINESS_EXPERT_QUOTES, CITATION_WORTHINESS_ORIGINAL_RESEARCH,
      CITATION_WORTHINESS_COMPREHENSIVE_COVERAGE, min_def]
  · norm_num [emptyDocStructureScore, emptyDocReadability, calculateReadabilityScore,
      calculateStructureScore, min_def, max_def]
  · intro now c
    have h0 : calculateDaysSince now (extractLastUpdated none now) = 0 := by
      simp [calculateDaysSince, extractLastUpdated]
    refine ⟨h0, ?_⟩
    rw [h0]
    simp only [calculateFreshnessScore]
    split_ifs <;> first
      | linarith
      | norm_num [min_def, max_def]

/-- C3 witness: the freshness component of the theorem at the concrete instant 0
with competitor average 15. -/
theorem c3_empty_document_scores_witness :
    calculateDaysSince 0 (extractLastUpdated none 0) = 0
      ∧ calculateFreshnessScore (calculateDaysSince 0 (extractLastUpdated none 0)) 15 = 1 :=
  c3_empty_document_scores.2.2.2.2.2.2.2.2 0 15

/-- C4 (corrected): the overall score is the fixed-weight dot product of the
five dimension scores with weights entity 0.2, citation 0.25, structure 0.15,
eeat 0.2, visibility 0.2 (the eeat dimension being the unweighted component
mean), and on all-0.8 inputs it equals 0.8 in exact rational arithmetic; but
under the binary64 semantics the program actually runs with, the all-0.8
document scores 7205759403792795 / 2 ^ 53 = 0.8000000000000002, one ulp above
the double 0.8 — not 0.8 exactly. -/
theorem c4_overall_score_dot_product :
    (∀ (a : AnalysisScores) (vis : ℚ),
        calculateOverallScore a vis
          = a.entityScore * 0.2 + a.aiCitationPotential * 0.25 + a.structureScore * 0.15
            + (a.eeatSignals.expertise + a.eeatSignals.experience
                + a.eeatSignals.authoritativeness + a.eeatSignals.trustworthiness) / 4 * 0.2
            + vis * 0.2)
    ∧ calculateOverallScoreIEEE
          ⟨double08, double08, double08, ⟨double08, double08, double08, double08⟩⟩ double08
        = 7205759403792795 / 2 ^ 53
    ∧ calculateOverallScoreIEEE
          ⟨double08, double08, double08, ⟨double08, double08, double08, double08⟩⟩ double08
        ≠ double08
    ∧ calculateOverallScore ⟨0.8, 0.8, 0.8, ⟨0.8, 0.8, 0.8, 0.8⟩⟩ 0.8 = 0.8 := by
  refine ⟨?_, overallScoreIEEE_allEights_eval, ?_, ?_⟩
  · intro a vis
    simp only [calculateOverallScore, overallKeys, List.foldl_cons, List.foldl_nil,
      overallScoreEntry, overallWeight, calculateEEATAverage]
    ring
  · rw [overallScoreIEEE_allEights_eval, double08_eval]
    norm_num
  · simp only [calculateOverallScore, overallKeys, List.foldl_cons, List.foldl_nil,
      overallScoreEntry, overallWeight, calculateEEATAverage]
    norm_num

/-- C4 counterexample: under the IEEE-754 binary64 arithmetic the program runs
with, the overall score of the all-0.8 document equals neither the double 0.8
nor the exact rational 0.8 — the claimed exact equality fails on the program. -/
theorem c4_float_exactness_counterexample :
    calculateOverallScoreIEEE
        ⟨double08, double08, double08, ⟨double08, double08, double08, double08⟩⟩ double08
      ≠ double08
    ∧ calculateOverallScoreIEEE
        ⟨double08, double08, double08, ⟨double08, double08, double08, double08⟩⟩ double08
      ≠ 0.8 := by
  rw [overallScoreIEEE_allEights_eval, double08_eval]
  constructor <;> norm_num

/-- C4 witness: the dot-product identity instantiated at all-ones scores. -/
theorem c4_overall_score_dot_product_witness :
    calculateOverallScore ⟨1, 1, 1, ⟨1, 1, 1, 1⟩⟩ 1
      = (1 : ℚ) * 0.2 + 1 * 0.25 + 1 * 0.15 + (1 + 1 + 1 + 1) / 4 * 0.2 + 1 * 0.2 :=
  c4_overall_score_dot_product.1 ⟨1, 1, 1, ⟨1, 1, 1, 1⟩⟩ 1

/-- C5 (corrected): each threshold rule fires at most once and the
recommendation list is always a sublist of the fixed declaration-order list
add_schema, improve_structure, add_author_bio, update_content; the list is NOT
re-sorted by priority, so the medium-priority improve_structure recommendation
can precede high-priority ones. -/
theorem c5_recommendations_declaration_order :
    ∀ d : RecommendationInput,
      List.Sublist (generateRecommendations d)
          [schemaRec, structureRec, authorBioRec, updateContentRec]
        ∧ ∀ r : Recommendation, (generateRecommendations d).count r ≤ 1 := by
  intro d
  have hsub : List.Sublist (generateRecommendations d)
      [schemaRec, structureRec, authorBioRec, updateContentRec] := by
    unfold generateRecommendations
    have h1 := ite_singleton_sublist (d.entityScore < 0.6) schemaRec
    have h2 := ite_singleton_sublist (d.structureScore < 0.7) structureRec
    have h3 := ite_singleton_sublist (d.eeatAuthoritativeness < 0.5) authorBioRec
    have h4 := ite_singleton_sublist
      (d.freshnessUrgency = .high ∨ d.freshnessUrgency = .critical) updateContentRec
    exact ((h1.append h2).append h3).append h4
  refine ⟨hsub, fun r => ?_⟩
  exact le_trans (hsub.count_le r)
    (List.nodup_iff_count_le_one.mp recommendationRules_nodup r)

/-- C5 witness: the declaration-order sublist property at a concrete analysis
where three rules fire. -/
theorem c5_recommendations_declaration_order_witness :
    List.Sublist (generateRecommendations ⟨0.5, 0.5, 0.4, .low⟩)
      [schemaRec, structureRec, authorBioRec, updateContentRec] :=
  (c5_recommendations_declaration_order ⟨0.5, 0.5, 0.4, .low⟩).1

/-- C5 counterexample: with entity 0.5, structure 0.5, authoritativeness 0.4 and
low freshness urgency, the list is add_schema (high), improve_structure
(medium), add_author_bio (high): a lower-priority recommendation precedes a
higher-priority one. -/
theorem c5_ordering_counterexample :
    ¬ orderedByDescendingPriority (generateRecommendations ⟨0.5, 0.5, 0.4, .low⟩) := by
  have hl : generateRecommendations ⟨0.5, 0.5, 0.4, .low⟩
      = [schemaRec, structureRec, authorBioRec] := by
    norm_num [generateRecommendations]
    exact ⟨by decide, by decide⟩
  rw [orderedByDescendingPriority, hl]
  intro h
  rcases List.pairwise_cons.mp h with ⟨_, h2⟩
  rcases List.pairwise_cons.mp h2 with ⟨h3, _⟩
  have hba := h3 authorBioRec (by simp)
  norm_num [priorityRank, structureRec, authorBioRec] at hba

/-- C6 (corrected): all scorers are pure, so freshness results coincide whenever
the simulated random draws coincide, the freshness score varies across runs by
at most the 0.2 competitor bonus, and the urgency is in fact run-independent
because every draw lies in [15, 74]; but the competitor baseline IS drawn from a
random source, so two runs on the same document can differ. -/
theorem c6_freshness_run_dependence :
    (∀ days r₁ r₂ : ℚ, getCompetitorFreshness r₁ = getCompetitorFreshness r₂ →
        calculateFreshnessScore days (getCompetitorFreshness r₁)
            = calculateFreshnessScore days (getCompetitorFreshness r₂)
          ∧ determineUpdateUrgency days (getCompetitorFreshness r₁)
              = determineUpdateUrgency days (getCompetitorFreshness r₂))
    ∧ (∀ days c₁ c₂ : ℚ,
        |calculateFreshnessScore days c₁ - calculateFreshnessScore days c₂| ≤ 0.2)
    ∧ (∀ days r : ℚ, 0 ≤ r →
        determineUpdateUrgency days (getCompetitorFreshness r)
          = if days > 7 then UpdateUrgency.critical else UpdateUrgency.low) := by
  refine ⟨?_, ?_, ?_⟩
  · intro days r₁ r₂ h
    rw [h]
    exact ⟨rfl, rfl⟩
  · intro days c₁ c₂
    rw [calculateFreshnessScore_eq_base days c₁, calculateFreshnessScore_eq_base days c₂]
    refine le_trans (clamp01_lipschitz _ _) ?_
    have key1 : ∀ x : ℚ, x + 0.2 - x = 0.2 := fun x => by ring
    have key2 : ∀ x : ℚ, x - (x + 0.2) = -(0.2 : ℚ) := fun x => by ring
    by_cases h1 : days < c₁ <;> by_cases h2 : days < c₂ <;>
      simp only [h1, h2, if_true, if_false, ite_true, ite_false, add_zero]
    · rw [sub_self, abs_zero]
      norm_num
    · rw [key1, abs_of_nonneg (by norm_num : (0:ℚ) ≤ 0.2)]
    · rw [key2, abs_neg, abs_of_nonneg (by norm_num : (0:ℚ) ≤ 0.2)]
    · rw [sub_self, abs_zero]
      norm_num
  · intro days r hr
    have hfloor : (0 : ℚ) ≤ ((⌊r * 60⌋ : ℤ) : ℚ) := by
      exact_mod_cast Int.floor_nonneg.mpr (by positivity)
    have hc : (15 : ℚ) ≤ getCompetitorFreshness r := by
      unfold getCompetitorFreshness
      linarith
    unfold determineUpdateUrgency FRESHNESS_THRESHOLDS_CRITICAL FRESHNESS_THRESHOLDS_HIGH
      FRESHNESS_THRESHOLDS_MEDIUM
    split_ifs with h1 h2 h3 h4 <;> first | rfl | linarith

/-- C6 witness: run-independence of the urgency at document age 40 days and a
zero random draw. -/
theorem c6_freshness_run_dependence_witness :
    determineUpdateUrgency 40 (getCompetitorFreshness 0)
      = if (40 : ℚ) > 7 then UpdateUrgency.critical else UpdateUrgency.low :=
  c6_freshness_run_dependence.2.2 40 0 le_rfl

/-- C6 counterexample: two admissible draws of the simulated competitor check
(15 from draw 0, 74 from draw 59/60) give the same 40-day-old document different
freshness scores (0.7 versus 0.9): the analysis is not run-independent. -/
theorem c6_randomness_counterexample :
    getCompetitorFreshness 0 = 15
    ∧ getCompetitorFreshness (59 / 60) = 74
    ∧ calculateFreshnessScore 40 (getCompetitorFreshness 0)
        ≠ calculateFreshnessScore 40 (getCompetitorFreshness (59 / 60)) := by
  have ha : getCompetitorFreshness 0 = 15 := by
    norm_num [getCompetitorFreshness]
  have hb : getCompetitorFreshness (59 / 60) = 74 := by
    norm_num [getCompetitorFreshness]
  have hc : calculateFreshnessScore 40 15 = 0.7 := by
    norm_num [calculateFreshnessScore, min_def, max_def]
  have hd : calculateFreshnessScore 40 74 = 0.9 := by
    norm_num [calculateFreshnessScore, min_def, max_def]
  refine ⟨ha, hb, ?_⟩
  rw [ha, hb, hc, hd]
  norm_num

/-- C7 (confirmed): a document 40 days old against a competitor baseline of 15
days (so older than twice the baseline) gets updateUrgency critical. -/
theorem c7_urgency_critical_scenario :
    determineUpdateUrgency 40 15 = UpdateUrgency.critical ∧ (40 : ℚ) > 15 * 2 := by
  constructor
  · norm_num [determineUpdateUrgency]
  · norm_num

/-- C8 (corrected): a document with no detectable last-updated date is dated to
the current instant, so its age is 0 days and its freshness score is the
maximum 1 — greater than or equal to the score of any otherwise-identical
document with an explicit date, the reverse of the claimed direction; no error
is raised. -/
theorem c8_missing_date_maximal_freshness :
    ∀ now days c : ℚ,
      calculateDaysSince now (extractLastUpdated none now) = 0
      ∧ calculateFreshnessScore (calculateDaysSince now (extractLastUpdated none now)) c = 1
      ∧ calculateFreshnessScore days c
          ≤ calculateFreshnessScore (calculateDaysSince now (extractLastUpdated none now)) c := by
  intro now days c
  have h0 : calculateDaysSince now (extractLastUpdated none now) = 0 := by
    simp [calculateDaysSince, extractLastUpdated]
  have h1 : calculateFreshnessScore 0 c = 1 := by
    simp only [calculateFreshnessScore]
    split_ifs <;> first
      | linarith
      | norm_num [min_def, max_def]
  refine ⟨h0, ?_, ?_⟩
  · rw [h0]
    exact h1
  · rw [h0, h1]
    exact calculateFreshnessScore_le_one days c

/-- C8 witness: the theorem instantiated at instant 0, document age 40 days,
competitor average 15. -/
theorem c8_missing_date_maximal_freshness_witness :
    calculateFreshnessScore 40 15
      ≤ calculateFreshnessScore (calculateDaysSince 0 (extractLastUpdated none 0)) 15 :=
  (c8_missing_date_maximal_freshness 0 40 15).2.2

/-- C8 counterexample: a document whose explicit date is 40 days (3456000000 ms)
in the past scores 0.7, strictly below the score 1 of the same document with the
date removed: the missing datum does NOT propagate as a lower-or-equal score. -/
theorem c8_missing_date_counterexample :
    ¬ (calculateFreshnessScore (calculateDaysSince 0 (extractLastUpdated none 0)) 15
        ≤ calculateFreshnessScore
            (calculateDaysSince 0 (extractLastUpdated (some (-3456000000)) 0)) 15) := by
  have h0 : calculateDaysSince 0 (extractLastUpdated none 0) = 0 := by
    simp [calculateDaysSince, extractLastUpdated]
  have h40 : calculateDaysSince 0 (extractLastUpdated (some (-3456000000)) 0) = 40 := by
    norm_num [calculateDaysSince, extractLastUpdated]
  rw [h0, h40]
  have h1 : calculateFreshnessScore 0 15 = 1 := by
    norm_num [calculateFreshnessScore, min_def, max_def]
  have h2 : calculateFreshnessScore 40 15 = 0.7 := by
    norm_num [calculateFreshnessScore, min_def, max_def]
  rw [h1, h2]
  norm_num

/-- C9 (confirmed): for a non-negative integer age, determineUpdateUrgency is
critical exactly when the age exceeds twice the competitor average or exceeds 7
days, and is low otherwise; the high and medium branches are unreachable since
the critical threshold 7 is below the high threshold 30 and the medium
threshold 90. -/
theorem c9_urgency_dichotomy :
    ∀ (days : ℕ) (avg : ℚ),
      (determineUpdateUrgency (days : ℚ) avg = UpdateUrgency.critical
          ↔ ((days : ℚ) > avg * 2 ∨ (days : ℚ) > 7))
        ∧ (determineUpdateUrgency (days : ℚ) avg = UpdateUrgency.critical
            ∨ determineUpdateUrgency (days : ℚ) avg = UpdateUrgency.low)
        ∧ determineUpdateUrgency (days : ℚ) avg ≠ UpdateUrgency.high
        ∧ determineUpdateUrgency (days : ℚ) avg ≠ UpdateUrgency.medium := by
  intro days avg
  unfold determineUpdateUrgency FRESHNESS_THRESHOLDS_CRITICAL FRESHNESS_THRESHOLDS_HIGH
    FRESHNESS_THRESHOLDS_MEDIUM
  split_ifs with h1 h2 h3 h4
  · exact ⟨⟨fun _ => Or.inl h1, fun _ => rfl⟩, Or.inl rfl, by decide, by decide⟩
  · exact ⟨⟨fun _ => Or.inr h2, fun _ => rfl⟩, Or.inl rfl, by decide, by decide⟩
  · exact absurd h3 (fun h => h2 (by linarith))
  · exact absurd h4 (fun h => h2 (by linarith))
  · refine ⟨⟨fun h => absurd h (by decide), fun h => ?_⟩, Or.inr rfl, by decide, by decide⟩
    rcases h with h | h
    · exact absurd h h1
    · exact absurd h h2

/-- C9 witness: an 8-day-old document with competitor average 15 is critical via
the second disjunct of the characterization. -/
theorem c9_urgency_dichotomy_witness :
    determineUpdateUrgency ((8 : ℕ) : ℚ) 15 = UpdateUrgency.critical :=
  (c9_urgency_dichotomy 8 15).1.mpr (Or.inr (by norm_num))

/-- C10 (confirmed): the aggregate E-E-A-T value entering the report and the
overall score is the unweighted mean of the four components — each weighted
0.25 — and differs from the weighting the EEAT_WEIGHTS table (0.3, 0.25, 0.25,
0.2) would give. -/
theorem c10_eeat_unweighted_mean :
    (∀ e : EEATAnalysisScores,
        calculateEEATAverage e / 100
          = 0.25 * e.expertise + 0.25 * e.experience + 0.25 * e.authoritativeness
            + 0.25 * e.trustworthiness)
    ∧ (∀ (a : AnalysisScores) (vis : ℚ),
        overallScoreEntry a vis OverallKey.eeat
          = (a.eeatSignals.expertise + a.eeatSignals.experience
              + a.eeatSignals.authoritativeness + a.eeatSignals.trustworthiness) / 4)
    ∧ ∃ e : EEATAnalysisScores, calculateEEATAverage e / 100 ≠ eeatWeightsCombination e := by
  refine ⟨?_, ?_, ⟨⟨1, 0, 0, 0⟩, ?_⟩⟩
  · intro e
    unfold calculateEEATAverage
    ring
  · intro a vis
    simp only [overallScoreEntry, calculateEEATAverage]
    ring
  · norm_num [calculateEEATAverage, eeatWeightsCombination, EEAT_WEIGHTS_EXPERTISE,
      EEAT_WEIGHTS_EXPERIENCE, EEAT_WEIGHTS_AUTHORITATIVENESS, EEAT_WEIGHTS_TRUSTWORTHINESS]

/-- C10 witness: the unweighted-mean identity at all-ones component scores. -/
theorem c10_eeat_unweighted_mean_witness :
    calculateEEATAverage ⟨1, 1, 1, 1⟩ / 100
      = (0.25 : ℚ) * 1 + 0.25 * 1 + 0.25 * 1 + 0.25 * 1 :=
  c10_eeat_unweighted_mean.1 ⟨1, 1, 1, 1⟩

/-- C3 counterexample: the empty document does not score 0 on every dimension:
its structure score is 0.3 and its freshness score (at the simulated competitor
average 15) is 1. -/
theorem c3_empty_document_counterexample :
    emptyDocStructureScore ≠ 0
    ∧ calculateFreshnessScore (calculateDaysSince 0 (extractLastUpdated none 0)) 15 ≠ 0 := by
  have h0 : calculateDaysSince 0 (extractLastUpdated none 0) = 0 := by
    simp [calculateDaysSince, extractLastUpdated]
  rw [h0]
  constructor
  · norm_num [emptyDocStructureScore, emptyDocReadability, calculateReadabilityScore,
      calculateStructureScore, min_def, max_def]
  · norm_num [calculateFreshnessScore, min_def, max_def]

end ProductSkills
